import Mathlib

/-!
Shallow embedding of the `intelligentdata` Python SDK
(`src/intelligentdata/{client,auth,exceptions,models}.py`).

The embedding models:
  * the error taxonomy of `exceptions.py` (together with the Python built-in
    exceptions the client code can raise: `httpx.TransportError`,
    `httpx.HTTPStatusError`, `json.JSONDecodeError`, `ValueError`, `KeyError`,
    `TypeError`) as the inductive type `PyError`;
  * JSON scalar values as `JVal` and flat JSON objects as `JsonObj`;
  * the retry loop `IntelligentDataClient._request` as the pure function
    `pyRequest`, which consumes for each attempt index the outcome of the
    underlying `httpx` call (a transport failure or an `HttpResponse`) and
    returns the list of `time.sleep` durations performed together with the
    final result (parsed JSON body or raised error);
  * the OAuth2 token manager `OAuth2TokenManager.get_token` as the pure
    function `getToken`, returning the result, the new cache contents and the
    number of network calls performed;
  * the request serializer `_serialize` / `_to_camel` of `client.py`, together
    with the `AddressRequest` dataclass of `models.py` and the field/value
    list `dataclasses.asdict` produces for it.

Machine floats of the Python code (`time.time()`, `float(...)`, sleep
durations) are modelled as rationals.
-/

/-- A JSON scalar value (the request/response fields the claims touch are
scalars; numbers are modelled as rationals). -/
inductive JVal where
  | str (s : String)
  | num (q : ℚ)
  | bool (b : Bool)
deriving DecidableEq, Repr

/-- A flat JSON object, as an association list preserving insertion order
(Python dicts preserve insertion order). -/
abbrev JsonObj := List (String × JVal)

/-- The exceptions the SDK code can raise.  `apiError`, `authenticationError`
and `rateLimitError` model the classes of `exceptions.py` (each carries the
`status_code`, `message` and `raw` attributes set by its constructor;
`rateLimitError` additionally carries `retry_after`).  The remaining
constructors model exceptions of Python or its libraries that the SDK code can
let escape: `transportError exc` is an `httpx.TransportError` instance
(tagged by an identifier so distinct failures are distinguishable),
`httpStatusError` is what `httpx.Response.raise_for_status` raises on a
non-2xx response, `jsonDecodeError` is what `Response.json()` raises on an
unparseable body, `valueError` is what `float(...)` raises on an unparseable
string, `keyError`/`typeError` are the built-ins of the same names. -/
inductive PyError where
  | apiError (statusCode : ℕ) (message : JVal) (raw : JsonObj)
  | authenticationError (statusCode : ℕ) (message : JVal) (raw : JsonObj)
  | rateLimitError (statusCode : ℕ) (message : JVal) (retryAfter : Option ℚ) (raw : JsonObj)
  | transportError (exc : ℕ)
  | httpStatusError (statusCode : ℕ)
  | jsonDecodeError
  | valueError
  | keyError (k : String)
  | typeError
deriving DecidableEq, Repr

/-- Decidable equality for `Except`, so that concrete runs of the embedded
functions can be checked by `decide`. -/
instance {ε α : Type} [DecidableEq ε] [DecidableEq α] : DecidableEq (Except ε α)
  | .error a, .error b =>
      if h : a = b then .isTrue (by rw [h]) else .isFalse (by simp [h])
  | .error _, .ok _ => .isFalse (by simp)
  | .ok _, .error _ => .isFalse (by simp)
  | .ok a, .ok b =>
      if h : a = b then .isTrue (by rw [h]) else .isFalse (by simp [h])

/-- Model of `AuthenticationError.__init__(message, raw)`: it calls
`super().__init__(401, message, raw)`: the status code is hard-coded to 401
(`exceptions.py`, lines 14-18). -/
def mkAuthenticationError (message : JVal) (raw : JsonObj) : PyError :=
  .authenticationError 401 message raw

/-- Model of `RateLimitError.__init__(retry_after, raw)`: it stores `retry_after` and calls
`super().__init__(429, "Rate limit exceeded", raw)`; the `ApiError`
constructor replaces a `None` raw body by `{}` (`raw or {}`). -/
def mkRateLimitError (retryAfter : Option ℚ) (raw : Option JsonObj) : PyError :=
  .rateLimitError 429 (.str "Rate limit exceeded") retryAfter (raw.getD [])

/-- Whether an error is an instance of the SDK class `AuthenticationError`. -/
def PyError.isAuthenticationError : PyError → Bool
  | .authenticationError _ _ _ => true
  | _ => false

/-- Whether an error is an instance of one of the three SDK exception classes
of `exceptions.py` (as opposed to a Python built-in or `httpx` exception). -/
def PyError.isSdkError : PyError → Bool
  | .apiError _ _ _ => true
  | .authenticationError _ _ _ => true
  | .rateLimitError _ _ _ _ => true
  | _ => false

/-- Model of Python `dict.get(k, d)`: the value stored under `k`, or the default `d`. -/
def dictGet (o : JsonObj) (k : String) (d : JVal) : JVal :=
  match o.lookup k with
  | some v => v
  | none => d

/-- Digit-list value, little helper for the decimal parser. -/
def digitsVal (l : List Char) : ℕ :=
  l.foldl (fun a c => a * 10 + (c.toNat - 48)) 0

/-- Parse a non-empty all-digit character list. -/
def parseDigits (l : List Char) : Option ℕ :=
  if l ≠ [] ∧ l.all Char.isDigit then some (digitsVal l) else none

/-- Parse an unsigned decimal literal (`"17"`, `"1.5"`, `"1."`, `".5"`). -/
def parseUnsignedFloat (cs : List Char) : Option ℚ :=
  match cs.splitOn '.' with
  | [ip] => (parseDigits ip).map (fun n => (n : ℚ))
  | [ip, fp] =>
      if ip = [] ∧ fp = [] then none
      else
        match (if ip = [] then some 0 else parseDigits ip),
              (if fp = [] then some 0 else parseDigits fp) with
        | some i, some f => some ((i : ℚ) + (f : ℚ) / (10 : ℚ) ^ fp.length)
        | _, _ => none
  | _ => none

/-- Model of Python `float(s)` on decimal literals: an optional sign followed
by a decimal number.  Returns `none` where `float` raises `ValueError`. -/
def parseFloat (s : String) : Option ℚ :=
  match s.data with
  | '-' :: rest => (parseUnsignedFloat rest).map (fun q => -q)
  | '+' :: rest => parseUnsignedFloat rest
  | rest => parseUnsignedFloat rest

/-- An HTTP response as the client observes it: status code, the
`Retry-After` header when present, the raw body text (`resp.text`; the
truthiness test `resp.content` is `text ≠ ""`), and the result of parsing the
body as a JSON object (`none` models a body on which `resp.json()` raises
`json.JSONDecodeError`). -/
structure HttpResponse where
  status : ℕ
  retryAfter : Option String
  text : String
  json : Option JsonObj
deriving DecidableEq, Repr

/-- One outcome of the underlying `httpx.Client.request` call: either a
network-level transport failure (`httpx.TransportError`, tagged so distinct
failures are distinguishable) or an HTTP response. -/
inductive AttemptOutcome where
  | transportFailure (exc : ℕ)
  | response (r : HttpResponse)
deriving DecidableEq, Repr

/-- Model of `resp.json()`: the parsed JSON object, or a raised `JSONDecodeError`. -/
def respJson (r : HttpResponse) : Except PyError JsonObj :=
  match r.json with
  | some o => .ok o
  | none => .error .jsonDecodeError

/-- Model of `resp.json() if resp.content else dict()` (the 401/403 and
generic-4xx paths of `_request`). -/
def jsonOrEmpty (r : HttpResponse) : Except PyError JsonObj :=
  if r.text = "" then .ok [] else respJson r

/-- Model of `resp.json() if resp.content else None` (the raw body attached to
`RateLimitError` on the final 429). -/
def rawFor429 (r : HttpResponse) : Except PyError (Option JsonObj) :=
  if r.text = "" then .ok none else (respJson r).map some

/-- Model of `float(resp.headers.get("Retry-After", 2**attempt))` (client.py line
119): the header parsed as seconds when present (a raised `ValueError` when
unparseable), else the fallback `2^attempt`. -/
def retryAfterSeconds (r : HttpResponse) (attempt : ℕ) : Except PyError ℚ :=
  match r.retryAfter with
  | none => .ok ((2 : ℚ) ^ attempt)
  | some s =>
      match parseFloat s with
      | some q => .ok q
      | none => .error .valueError

/-- What one iteration of the retry loop decides: exit with a parsed body,
raise an error, or `continue` with the (possibly updated) `last_err`. -/
inductive StepResult where
  | success (body : JsonObj)
  | failure (e : PyError)
  | retry (lastErr : Option PyError)
deriving DecidableEq, Repr

/-- One iteration of the `for attempt in range(_MAX_RETRIES)` body of
`IntelligentDataClient._request` (client.py lines 105-140), given the current
`last_err`, the attempt index, whether this is the final attempt
(`isLast = ¬(attempt < _MAX_RETRIES - 1)`), and the outcome of the HTTP call.
Returns the `time.sleep` durations performed by this iteration together with
the decision. -/
def loopBody (lastErr : Option PyError) (attempt : ℕ) (isLast : Bool) :
    AttemptOutcome → List ℚ × StepResult
  | .transportFailure exc =>
      ([(2 : ℚ) ^ attempt], .retry (some (.transportError exc)))
  | .response r =>
      if r.status = 429 then
        match retryAfterSeconds r attempt with
        | .error e => ([], .failure e)
        | .ok ra =>
            if isLast then
              match rawFor429 r with
              | .error e => ([], .failure e)
              | .ok raw => ([], .failure (mkRateLimitError (some ra) raw))
            else ([ra], .retry lastErr)
      else if 500 ≤ r.status then
        let err := PyError.apiError r.status (.str r.text) []
        if isLast then ([], .failure err)
        else ([(2 : ℚ) ^ attempt], .retry (some err))
      else if r.status = 401 ∨ r.status = 403 then
        match jsonOrEmpty r with
        | .error e => ([], .failure e)
        | .ok data =>
            ([], .failure (mkAuthenticationError
              (dictGet data "message" (.str "Authentication failed")) data))
      else if 400 ≤ r.status then
        match jsonOrEmpty r with
        | .error e => ([], .failure e)
        | .ok data =>
            ([], .failure (.apiError r.status
              (dictGet data "message" (.str "Request failed")) data))
      else
        match respJson r with
        | .error e => ([], .failure e)
        | .ok body => ([], .success body)

/-- Model of `raise last_err or ApiError(0, "Request failed after retries")`
(client.py line 142): the defensive fallback raised when the loop exhausts
with no recorded pending error. -/
def fallbackError : PyError :=
  .apiError 0 (.str "Request failed after retries") []

/-- The retry loop of `_request` from attempt index `attempt` with
`rem` iterations still to run (`rem = 0` is loop exhaustion: raise
`last_err or fallbackError`).  The final attempt is the one with `rem = 1`
remaining, matching `attempt < _MAX_RETRIES - 1` under the invariant
`attempt + rem = _MAX_RETRIES`.  `outcomes i` is the outcome of the HTTP call
performed on attempt `i`. -/
def requestLoop (outcomes : ℕ → AttemptOutcome) :
    ℕ → ℕ → Option PyError → List ℚ × Except PyError JsonObj
  | _, 0, lastErr => ([], .error (lastErr.getD fallbackError))
  | attempt, rem + 1, lastErr =>
      match loopBody lastErr attempt (rem == 0) (outcomes attempt) with
      | (s, .success b) => (s, .ok b)
      | (s, .failure e) => (s, .error e)
      | (s, .retry le) =>
          match requestLoop outcomes (attempt + 1) rem le with
          | (s2, res) => (s ++ s2, res)

/-- Model of `IntelligentDataClient._request` as a pure function of the per-attempt
outcomes: `_MAX_RETRIES = 3` attempts starting at attempt 0 with
`last_err = None`.  Returns the ordered list of sleep durations and the final
result. -/
def pyRequest (outcomes : ℕ → AttemptOutcome) : List ℚ × Except PyError JsonObj :=
  requestLoop outcomes 0 3 none

/-- Whether the final result is the defensive fallback error of client.py
line 142. -/
def isFallbackResult : Except PyError JsonObj → Bool
  | .error e => e == fallbackError
  | .ok _ => false

/-- The `_TokenCache` dataclass of `auth.py`: access token and absolute expiry
time. -/
structure TokenCache where
  access_token : JVal
  expires_at : ℚ
deriving DecidableEq, Repr

/-- The reply of the token endpoint as `OAuth2TokenManager.get_token` observes
it:
status code and parsed JSON body (`none` models an unparseable body). -/
structure TokenResponse where
  status : ℕ
  json : Option JsonObj
deriving DecidableEq, Repr

/-- Model of `OAuth2TokenManager.get_token` (auth.py lines 33-53) as a pure
function
of the current cache, the current time `now` (`time.time()`) and the token
reply `net` of the token endpoint.  Returns the result (the access token, or the raised
exception), the cache contents afterwards, and the number of network calls
performed (0 on the cache-hit path, 1 otherwise).  `raise_for_status` raises
`httpx.HTTPStatusError` on any non-2xx status; `data["access_token"]` raises
`KeyError` when absent; `time.time() + data.get("expires_in", 3600)` raises
`TypeError` when `expires_in` is present but not a number.  The refresh path
(auth.py lines 38-53) is `getTokenRefresh`: POST to the token URL,
`raise_for_status`, parse, replace the cache. -/
def getTokenRefresh (cache : Option TokenCache) (now : ℚ) (net : TokenResponse) :
    Except PyError JVal × Option TokenCache × ℕ :=
  if ¬ (200 ≤ net.status ∧ net.status < 300) then
    (.error (.httpStatusError net.status), cache, 1)
  else
    match net.json with
    | none => (.error .jsonDecodeError, cache, 1)
    | some data =>
        match data.lookup "access_token" with
        | none => (.error (.keyError "access_token"), cache, 1)
        | some tok =>
            match data.lookup "expires_in" with
            | none => (.ok tok, some ⟨tok, now + 3600⟩, 1)
            | some (.num ei) => (.ok tok, some ⟨tok, now + ei⟩, 1)
            | some _ => (.error .typeError, cache, 1)

def getToken (cache : Option TokenCache) (now : ℚ) (net : TokenResponse) :
    Except PyError JVal × Option TokenCache × ℕ :=
  match cache with
  | some c =>
      if now < c.expires_at - 30 then (.ok c.access_token, some c, 0)
      else getTokenRefresh cache now net
  | none => getTokenRefresh cache now net

/-- Python `str.split(sep)` for a one-character separator: split at every
occurrence, keeping empty segments (`"a__b".split("_") == ["a", "", "b"]`,
`"".split("_") == [""]`). -/
def splitChar (sep : Char) : List Char → List (List Char)
  | [] => [[]]
  | c :: rest =>
      match splitChar sep rest with
      | [] => if c = sep then [[], []] else [[c]]
      | s :: ss => if c = sep then [] :: s :: ss else (c :: s) :: ss

/-- Python `str.capitalize`: upcase the first character, lowercase the
remainder. -/
def pyCapitalize (s : String) : String :=
  match s.data with
  | [] => ""
  | c :: rest => ⟨c.toUpper :: rest.map Char.toLower⟩

/-- Model of `_to_camel` (client.py lines 35-37): split on underscores, keep the first
part, capitalize the remaining parts and concatenate. -/
def toCamel (name : String) : String :=
  match (splitChar '_' name.data).map (fun l => (⟨l⟩ : String)) with
  | [] => ""
  | p :: ps => p ++ String.join (ps.map pyCapitalize)

/-- Python `v != ""`. -/
def pyIsEmptyStr : JVal → Bool
  | .str s => s == ""
  | _ => false

/-- Python `v != 0` (numeric equality: `0 == 0.0 == False` in Python). -/
def pyIsZero : JVal → Bool
  | .num q => q == 0
  | .bool b => !b
  | _ => false

/-- Model of `_serialize` (client.py lines 40-42): camel-case every key and drop every
entry whose value is the empty string or numeric zero. -/
def serialize (kvs : JsonObj) : JsonObj :=
  (kvs.filter fun kv => !pyIsEmptyStr kv.2 && !pyIsZero kv.2).map
    fun kv => (toCamel kv.1, kv.2)

/-- The `AddressRequest` dataclass of `models.py`. -/
structure AddressRequest where
  address_line1 : String
  city : String
  country : String
  address_line2 : String
  state : String
  postal_code : String
deriving DecidableEq, Repr

/-- Model of `dataclasses.asdict` on an `AddressRequest`: the fields in declaration
order. -/
def asdictAddress (r : AddressRequest) : JsonObj :=
  [("address_line1", .str r.address_line1),
   ("city", .str r.city),
   ("country", .str r.country),
   ("address_line2", .str r.address_line2),
   ("state", .str r.state),
   ("postal_code", .str r.postal_code)]

theorem retryAfterSeconds_error {r : HttpResponse} {a : ℕ} {e : PyError}
    (h : retryAfterSeconds r a = .error e) : e = .valueError := by
  unfold retryAfterSeconds at h
  split at h
  · simp at h
  · split at h
    · simp at h
    · simp only [Except.error.injEq] at h
      exact h.symm

theorem respJson_error {r : HttpResponse} {e : PyError}
    (h : respJson r = .error e) : e = .jsonDecodeError := by
  unfold respJson at h
  split at h
  · simp at h
  · simp only [Except.error.injEq] at h
    exact h.symm

theorem jsonOrEmpty_error {r : HttpResponse} {e : PyError}
    (h : jsonOrEmpty r = .error e) : e = .jsonDecodeError := by
  unfold jsonOrEmpty at h
  split at h
  · simp at h
  · exact respJson_error h

theorem rawFor429_error {r : HttpResponse} {e : PyError}
    (h : rawFor429 r = .error e) : e = .jsonDecodeError := by
  unfold rawFor429 at h
  split at h
  · exact Except.noConfusion h
  · rcases h2 : respJson r with e2 | o
    · rw [h2] at h
      injection h with h3
      rw [← h3]
      exact respJson_error h2
    · rw [h2] at h
      exact Except.noConfusion h

/-- Every error raised (not merely recorded) by an iteration of the retry
loop differs from the defensive fallback error. -/
theorem loopBody_failure_ne_fallback (le : Option PyError) (a : ℕ) (last : Bool)
    (out : AttemptOutcome) (s : List ℚ) (e : PyError)
    (h : loopBody le a last out = (s, .failure e)) : e ≠ fallbackError := by
  cases out with
  | transportFailure exc =>
      exact StepResult.noConfusion (congrArg Prod.snd h)
  | response r =>
      simp only [loopBody] at h
      split at h
      · split at h
        · rename_i e0 heq
          have he := StepResult.failure.inj (congrArg Prod.snd h)
          subst he
          rw [retryAfterSeconds_error heq]
          simp [fallbackError]
        · split at h
          · split at h
            · rename_i e0 heq
              have he := StepResult.failure.inj (congrArg Prod.snd h)
              subst he
              rw [rawFor429_error heq]
              simp [fallbackError]
            · have he := StepResult.failure.inj (congrArg Prod.snd h)
              subst he
              simp [mkRateLimitError, fallbackError]
          · exact StepResult.noConfusion (congrArg Prod.snd h)
      · split at h
        · split at h
          · have he := StepResult.failure.inj (congrArg Prod.snd h)
            subst he
            simp only [fallbackError, ne_eq, PyError.apiError.injEq]
            omega
          · exact StepResult.noConfusion (congrArg Prod.snd h)
        · split at h
          · split at h
            · rename_i e0 heq
              have he := StepResult.failure.inj (congrArg Prod.snd h)
              subst he
              rw [jsonOrEmpty_error heq]
              simp [fallbackError]
            · have he := StepResult.failure.inj (congrArg Prod.snd h)
              subst he
              simp [mkAuthenticationError, fallbackError]
          · split at h
            · split at h
              · rename_i e0 heq
                have he := StepResult.failure.inj (congrArg Prod.snd h)
                subst he
                rw [jsonOrEmpty_error heq]
                simp [fallbackError]
              · have he := StepResult.failure.inj (congrArg Prod.snd h)
                subst he
                simp only [fallbackError, ne_eq, PyError.apiError.injEq]
                omega
            · split at h
              · rename_i e0 heq
                have he := StepResult.failure.inj (congrArg Prod.snd h)
                subst he
                rw [respJson_error heq]
                simp [fallbackError]
              · exact StepResult.noConfusion (congrArg Prod.snd h)

/-- On the final attempt, the loop body can decide to continue only through
the transport-failure branch, which records the failure as the pending
error. -/
theorem loopBody_retry_last (le : Option PyError) (a : ℕ) (out : AttemptOutcome)
    (s : List ℚ) (le2 : Option PyError)
    (h : loopBody le a true out = (s, .retry le2)) :
    ∃ exc, le2 = some (.transportError exc) := by
  cases out with
  | transportFailure exc =>
      refine ⟨exc, ?_⟩
      have he := StepResult.retry.inj (congrArg Prod.snd h)
      exact he.symm
  | response r =>
      simp only [loopBody] at h
      split at h
      · split at h
        · exact StepResult.noConfusion (congrArg Prod.snd h)
        · split at h
          · split at h
            · exact StepResult.noConfusion (congrArg Prod.snd h)
            · exact StepResult.noConfusion (congrArg Prod.snd h)
          · rename_i hT
            exact absurd trivial hT
      · split at h
        · split at h
          · exact StepResult.noConfusion (congrArg Prod.snd h)
          · rename_i hT
            exact absurd trivial hT
        · split at h
          · split at h
            · exact StepResult.noConfusion (congrArg Prod.snd h)
            · exact StepResult.noConfusion (congrArg Prod.snd h)
          · split at h
            · split at h
              · exact StepResult.noConfusion (congrArg Prod.snd h)
              · exact StepResult.noConfusion (congrArg Prod.snd h)
            · split at h
              · exact StepResult.noConfusion (congrArg Prod.snd h)
              · exact StepResult.noConfusion (congrArg Prod.snd h)


theorem requestLoop_zero (outcomes : ℕ → AttemptOutcome) (attempt : ℕ)
    (le : Option PyError) :
    requestLoop outcomes attempt 0 le = ([], .error (le.getD fallbackError)) := rfl

theorem requestLoop_succ (outcomes : ℕ → AttemptOutcome) (attempt rem : ℕ)
    (le : Option PyError) :
    requestLoop outcomes attempt (rem + 1) le =
      match loopBody le attempt (rem == 0) (outcomes attempt) with
      | (s, .success b) => (s, .ok b)
      | (s, .failure e) => (s, .error e)
      | (s, .retry le2) =>
          match requestLoop outcomes (attempt + 1) rem le2 with
          | (s2, res) => (s ++ s2, res) := by
  rw [requestLoop]

theorem requestLoop_ne_fallback (rem : ℕ) :
    ∀ (outcomes : ℕ → AttemptOutcome) (attempt : ℕ) (le : Option PyError),
      0 < rem → isFallbackResult (requestLoop outcomes attempt rem le).2 = false := by
  induction rem with
  | zero => intro _ _ _ h; exact absurd h (by omega)
  | succ n ih =>
      intro outcomes attempt le _
      rw [requestLoop_succ]
      cases hlb : loopBody le attempt (n == 0) (outcomes attempt) with
      | mk s sr =>
          cases sr with
          | success b => simp [isFallbackResult]
          | failure e =>
              have hne := loopBody_failure_ne_fallback _ _ _ _ _ _ hlb
              simp [isFallbackResult, beq_eq_false_iff_ne]
              exact hne
          | retry le2 =>
              cases n with
              | zero =>
                  obtain ⟨exc, hexc⟩ := loopBody_retry_last _ _ _ _ _ hlb
                  subst hexc
                  simp [requestLoop_zero, isFallbackResult, beq_eq_false_iff_ne,
                    fallbackError]
              | succ m =>
                  have hrec := ih outcomes (attempt + 1) le2 (by omega)
                  cases hr : requestLoop outcomes (attempt + 1) (m + 1) le2 with
                  | mk s2 res =>
                      rw [hr] at hrec
                      simpa [hr] using hrec

/-- C9: the defensive fallback `ApiError(0, "Request failed after retries")`
of client.py line 142 is unreachable: whatever the per-attempt outcomes, the
result of `pyRequest` is never that error, because every path that exhausts
the loop has recorded a pending error (the transport-failure branch always
records one, and it is the only branch that can continue past the final
attempt) and every error raised inside the loop is more specific. -/
theorem fallback_error_unreachable (outcomes : ℕ → AttemptOutcome) :
    isFallbackResult (pyRequest outcomes).2 = false :=
  requestLoop_ne_fallback 3 outcomes 0 none (by omega)

/-- C4 (amended): when all three attempts end in network-level transport
failures, the executor sleeps `2^attempt` seconds after every failure,
including the final one - three sleeps of 1, 2 and 4 seconds, not two - and
the last transport failure is surfaced to the caller. -/
theorem transport_failures_sleep_and_surface (outcomes : ℕ → AttemptOutcome)
    (e0 e1 e2 : ℕ) (h0 : outcomes 0 = .transportFailure e0)
    (h1 : outcomes 1 = .transportFailure e1) (h2 : outcomes 2 = .transportFailure e2) :
    pyRequest outcomes = ([1, 2, 4], .error (.transportError e2)) := by
  simp [pyRequest, requestLoop, h0, h1, h2, loopBody]
  norm_num

/-- C4 counterexample: three consecutive transport failures produce the
sleep list [1, 2, 4] - three sleeps, with one after the final attempt -
contradicting the claim of exactly two sleeps of 1 and 2 seconds. -/
theorem transport_sleeps_counterexample :
    pyRequest (fun i => .transportFailure i) = ([1, 2, 4], .error (.transportError 2)) ∧
    (pyRequest (fun i => .transportFailure i)).1.length ≠ 2 := by
  constructor
  · decide
  · decide

/-- C4 witness: the amended theorem evaluated at three concrete transport
failures. -/
theorem transport_failures_witness :
    pyRequest (fun i => .transportFailure i) = ([1, 2, 4], .error (.transportError 2)) :=
  transport_failures_sleep_and_surface (fun i => .transportFailure i) 0 1 2 rfl rfl rfl

/-- A 401 or 403 response with a well-formed (empty or parseable) body makes
the loop iteration raise `AuthenticationError` at once, with no sleep,
whatever the attempt index, the remaining attempts and the pending error. -/
theorem requestLoop_auth_failure (outcomes : ℕ → AttemptOutcome)
    (attempt rem : ℕ) (lastErr : Option PyError) (r : HttpResponse) (data : JsonObj)
    (hout : outcomes attempt = .response r)
    (hstatus : r.status = 401 ∨ r.status = 403)
    (hjson : jsonOrEmpty r = .ok data) :
    requestLoop outcomes attempt (rem + 1) lastErr =
      ([], .error (mkAuthenticationError
        (dictGet data "message" (.str "Authentication failed")) data)) := by
  have h429 : ¬ r.status = 429 := by rcases hstatus with h | h <;> omega
  have h500 : ¬ 500 ≤ r.status := by rcases hstatus with h | h <;> omega
  rw [requestLoop_succ, hout]
  simp only [loopBody, if_neg h429, if_neg h500, if_pos hstatus, hjson]

/-- C2: a 401 or 403 response from a resource endpoint (with an empty or
parseable body, so that the message and raw body exist) makes the executor
fail at once with `AuthenticationError` carrying the message and raw body,
with zero sleeps and zero further attempts, whatever the attempt index, the
pending error and the number of remaining attempts. -/
theorem auth_response_immediate (outcomes : ℕ → AttemptOutcome)
    (attempt rem : ℕ) (lastErr : Option PyError) (r : HttpResponse) (data : JsonObj)
    (hout : outcomes attempt = .response r)
    (hstatus : r.status = 401 ∨ r.status = 403)
    (hjson : jsonOrEmpty r = .ok data) :
    requestLoop outcomes attempt (rem + 1) lastErr =
      ([], .error (mkAuthenticationError
        (dictGet data "message" (.str "Authentication failed")) data)) :=
  requestLoop_auth_failure outcomes attempt rem lastErr r data hout hstatus hjson

/-- C2 witness: a single 401 response with an empty body fails immediately
with the default message and no sleeps. -/
theorem auth_response_witness :
    requestLoop (fun _ => .response ⟨401, none, "", none⟩) 0 3 none =
      ([], .error (mkAuthenticationError (.str "Authentication failed") [])) := by
  have h := auth_response_immediate (fun _ => .response ⟨401, none, "", none⟩)
    0 2 none ⟨401, none, "", none⟩ [] rfl (Or.inl rfl) rfl
  simpa [dictGet] using h

/-- C10: a 403 response from a resource endpoint is raised as an
`AuthenticationError` whose `status_code` is the hard-coded 401 of the
constructor in exceptions.py, so a caller inspecting the status code of the
error cannot distinguish a 403 response from a 401 response. -/
theorem forbidden_reported_as_401 (outcomes : ℕ → AttemptOutcome)
    (r : HttpResponse) (data : JsonObj)
    (hout : outcomes 0 = .response r) (hstatus : r.status = 403)
    (hjson : jsonOrEmpty r = .ok data) :
    pyRequest outcomes =
      ([], .error (.authenticationError 401
        (dictGet data "message" (.str "Authentication failed")) data)) :=
  requestLoop_auth_failure outcomes 0 2 none r data hout (Or.inr hstatus) hjson

/-- C10 witness: a concrete 403 response yields an error carrying status
code 401. -/
theorem forbidden_reported_as_401_witness :
    pyRequest (fun _ => .response ⟨403, none, "", none⟩) =
      ([], .error (.authenticationError 401 (.str "Authentication failed") [])) := by
  have h := forbidden_reported_as_401 (fun _ => .response ⟨403, none, "", none⟩)
    ⟨403, none, "", none⟩ [] rfl rfl rfl
  simpa [dictGet] using h

/-- C1: a 429 response whose Retry-After header yields `q` seconds causes,
when attempts remain, a sleep of `q` seconds followed by a retry (never an
immediate error); the response sequence [429 with Retry-After 1, 200]
returns the 200 body after exactly one sleep of 1 second; and three
consecutive 429 responses raise `RateLimitError` carrying the Retry-After
value of the last response, after exactly two sleeps. -/
theorem rate_limit_retry_behavior :
    (∀ (outcomes : ℕ → AttemptOutcome) (r : HttpResponse) (q : ℚ),
        outcomes 0 = .response r → r.status = 429 → retryAfterSeconds r 0 = .ok q →
        pyRequest outcomes =
          (q :: (requestLoop outcomes 1 2 none).1, (requestLoop outcomes 1 2 none).2))
    ∧ (∀ (outcomes : ℕ → AttemptOutcome) (r0 r1 : HttpResponse) (body : JsonObj),
        outcomes 0 = .response r0 → r0.status = 429 → r0.retryAfter = some "1" →
        outcomes 1 = .response r1 → r1.status = 200 → r1.json = some body →
        pyRequest outcomes = ([1], .ok body))
    ∧ (∀ (outcomes : ℕ → AttemptOutcome) (r0 r1 r2 : HttpResponse) (q0 q1 q2 : ℚ),
        outcomes 0 = .response r0 → outcomes 1 = .response r1 → outcomes 2 = .response r2 →
        r0.status = 429 → r1.status = 429 → r2.status = 429 →
        retryAfterSeconds r0 0 = .ok q0 → retryAfterSeconds r1 1 = .ok q1 →
        retryAfterSeconds r2 2 = .ok q2 → r2.text = "" →
        pyRequest outcomes = ([q0, q1], .error (mkRateLimitError (some q2) none))) := by
  refine ⟨?_, ?_, ?_⟩
  · intro outcomes r q hout h429 hra
    rw [pyRequest, requestLoop_succ, hout]
    simp only [loopBody, if_pos h429, hra]
    cases hr : requestLoop outcomes 1 2 none with
    | mk s2 res => simp [hr]
  · intro outcomes r0 r1 body hout0 h429 hra hout1 h200 hjson
    have hp : parseFloat "1" = some 1 := by decide
    have hra1 : retryAfterSeconds r0 0 = .ok 1 := by
      simp [retryAfterSeconds, hra, hp]
    have hj : respJson r1 = .ok body := by
      unfold respJson
      rw [hjson]
    have step0 : requestLoop outcomes 0 3 none =
        (1 :: (requestLoop outcomes 1 2 none).1, (requestLoop outcomes 1 2 none).2) := by
      rw [requestLoop_succ, hout0]
      simp only [loopBody, if_pos h429, hra1]
      cases hr : requestLoop outcomes 1 2 none with
      | mk s2 res => simp [hr]
    have step1 : requestLoop outcomes 1 2 none = ([], .ok body) := by
      rw [requestLoop_succ, hout1]
      simp [loopBody, h200, hj]
    rw [pyRequest, step0, step1]
  · intro outcomes r0 r1 r2 q0 q1 q2 hout0 hout1 hout2 h0 h1 h2 hq0 hq1 hq2 htext
    have hraw : rawFor429 r2 = .ok none := by
      unfold rawFor429
      rw [if_pos htext]
    have step0 : requestLoop outcomes 0 3 none =
        (q0 :: (requestLoop outcomes 1 2 none).1, (requestLoop outcomes 1 2 none).2) := by
      rw [requestLoop_succ, hout0]
      simp only [loopBody, if_pos h0, hq0]
      cases hr : requestLoop outcomes 1 2 none with
      | mk s2 res => simp [hr]
    have step1 : requestLoop outcomes 1 2 none =
        (q1 :: (requestLoop outcomes 2 1 none).1, (requestLoop outcomes 2 1 none).2) := by
      rw [requestLoop_succ, hout1]
      simp only [loopBody, if_pos h1, hq1]
      cases hr : requestLoop outcomes 2 1 none with
      | mk s2 res => simp [hr]
    have step2 : requestLoop outcomes 2 1 none =
        ([], .error (mkRateLimitError (some q2) none)) := by
      rw [requestLoop_succ, hout2]
      simp [loopBody, h2, hq2, hraw]
    rw [pyRequest, step0, step1, step2]

/-- C1 witness: the retry-then-succeed and exhaustion scenarios evaluated
at concrete response sequences. -/
theorem rate_limit_retry_witness :
    pyRequest (fun i => if i = 0 then .response ⟨429, some "1", "", none⟩
        else .response ⟨200, none, "ok", some []⟩) = ([1], .ok [])
    ∧ pyRequest (fun _ => .response ⟨429, some "2", "", none⟩) =
        ([2, 2], .error (mkRateLimitError (some 2) none)) := by
  constructor
  · exact rate_limit_retry_behavior.2.1 _ ⟨429, some "1", "", none⟩
      ⟨200, none, "ok", some []⟩ [] rfl rfl rfl rfl rfl rfl
  · exact rate_limit_retry_behavior.2.2 _ ⟨429, some "2", "", none⟩
      ⟨429, some "2", "", none⟩ ⟨429, some "2", "", none⟩ 2 2 2
      rfl rfl rfl rfl rfl rfl (by decide) (by decide) (by decide) rfl

/-- C6 (amended): a 429 whose Retry-After header is absent uses the
fallback delay `2^attempt` seconds; but a present header that does not parse
as a number makes `float(...)` raise `ValueError`, failing the call at once
- before the remaining-attempts test - so header processing can itself fail
the call. -/
theorem retry_after_absent_fallback_unparseable_raises :
    (∀ (r : HttpResponse) (a : ℕ), r.retryAfter = none →
        retryAfterSeconds r a = .ok ((2 : ℚ) ^ a))
    ∧ (∀ (outcomes : ℕ → AttemptOutcome) (attempt rem : ℕ) (le : Option PyError)
          (r : HttpResponse) (s : String),
        outcomes attempt = .response r → r.status = 429 → r.retryAfter = some s →
        parseFloat s = none →
        requestLoop outcomes attempt (rem + 1) le = ([], .error .valueError)) := by
  constructor
  · intro r a h
    simp [retryAfterSeconds, h]
  · intro outcomes attempt rem le r s hout h429 hra hpf
    have hexc : retryAfterSeconds r attempt = .error .valueError := by
      simp [retryAfterSeconds, hra, hpf]
    rw [requestLoop_succ, hout]
    simp only [loopBody, if_pos h429, hexc]

/-- C6 counterexample: a 429 with the unparseable header value "soon"
fails the whole call at once with `ValueError` and no sleep, instead of
falling back to `2^attempt`; the raised error is not an SDK error. -/
theorem retry_after_unparseable_counterexample :
    pyRequest (fun _ => .response ⟨429, some "soon", "", none⟩) =
      ([], .error .valueError)
    ∧ PyError.valueError.isSdkError = false := by
  constructor
  · decide
  · decide

/-- C6 witness: the fallback and the unparseable-header failure evaluated
at concrete inputs. -/
theorem retry_after_witness :
    retryAfterSeconds ⟨429, none, "", none⟩ 1 = .ok 2
    ∧ requestLoop (fun _ => .response ⟨429, some "soon", "", none⟩) 0 3 none =
        ([], .error .valueError) := by
  constructor
  · have h := retry_after_absent_fallback_unparseable_raises.1 ⟨429, none, "", none⟩ 1 rfl
    simpa using h
  · exact retry_after_absent_fallback_unparseable_raises.2
      (fun _ => .response ⟨429, some "soon", "", none⟩) 0 2 none
      ⟨429, some "soon", "", none⟩ "soon" rfl rfl rfl (by decide)

/-- C7 (amended): an error response with an empty body degrades to the
classified error with a default message, and the 500-and-above path never
parses the body (it uses the raw text, whatever the body); but a 4xx
response (including 401/403) with a non-empty body that is not parseable
JSON makes the error path raise the JSON decode error instead of the
classified error. -/
theorem error_body_parsing_behavior :
    (∀ (outcomes : ℕ → AttemptOutcome) (r : HttpResponse),
        outcomes 0 = .response r → (r.status = 401 ∨ r.status = 403) → r.text = "" →
        pyRequest outcomes =
          ([], .error (mkAuthenticationError (.str "Authentication failed") [])))
    ∧ (∀ (outcomes : ℕ → AttemptOutcome) (r : HttpResponse),
        outcomes 0 = .response r → 400 ≤ r.status → r.status < 500 →
        r.status ≠ 401 → r.status ≠ 403 → r.status ≠ 429 → r.text = "" →
        pyRequest outcomes = ([], .error (.apiError r.status (.str "Request failed") [])))
    ∧ (∀ (outcomes : ℕ → AttemptOutcome) (r : HttpResponse),
        (∀ i, i < 3 → outcomes i = .response r) → 500 ≤ r.status →
        pyRequest outcomes = ([1, 2], .error (.apiError r.status (.str r.text) [])))
    ∧ (∀ (outcomes : ℕ → AttemptOutcome) (r : HttpResponse),
        outcomes 0 = .response r → 400 ≤ r.status → r.status < 500 →
        r.status ≠ 429 → r.text ≠ "" → r.json = none →
        pyRequest outcomes = ([], .error .jsonDecodeError)) := by
  refine ⟨?_, ?_, ?_, ?_⟩
  · intro outcomes r hout hstatus htext
    have hjson : jsonOrEmpty r = .ok [] := by
      unfold jsonOrEmpty
      rw [if_pos htext]
    have h := requestLoop_auth_failure outcomes 0 2 none r [] hout hstatus hjson
    simpa [dictGet] using h
  · intro outcomes r hout h400 h500 h401 h403 h429 htext
    have hjson : jsonOrEmpty r = .ok [] := by
      unfold jsonOrEmpty
      rw [if_pos htext]
    rw [pyRequest, requestLoop_succ, hout]
    simp only [loopBody, if_neg (show ¬r.status = 429 from h429),
      if_neg (show ¬500 ≤ r.status by omega),
      if_neg (show ¬(r.status = 401 ∨ r.status = 403) by
        rintro (h | h) <;> [exact h401 h; exact h403 h]),
      if_pos h400, hjson]
    simp [dictGet]
  · intro outcomes r houts h500
    have h429 : ¬r.status = 429 := by omega
    have step2 : requestLoop outcomes 2 1 none =
        ([], .error (.apiError r.status (.str r.text) [])) := by
      rw [requestLoop_succ, houts 2 (by omega)]
      simp [loopBody, if_neg h429, if_pos h500]
    have step1 : requestLoop outcomes 1 2 none =
        ((2 : ℚ) ^ 1 :: (requestLoop outcomes 2 1 (some (.apiError r.status (.str r.text) []))).1,
          (requestLoop outcomes 2 1 (some (.apiError r.status (.str r.text) []))).2) := by
      rw [requestLoop_succ, houts 1 (by omega)]
      simp only [loopBody, if_neg h429, if_pos h500]
      cases hr : requestLoop outcomes 2 1 (some (.apiError r.status (.str r.text) [])) with
      | mk s2 res => simp [hr]
    have step2b : requestLoop outcomes 2 1 (some (.apiError r.status (.str r.text) [])) =
        ([], .error (.apiError r.status (.str r.text) [])) := by
      rw [requestLoop_succ, houts 2 (by omega)]
      simp [loopBody, if_neg h429, if_pos h500]
    have step0 : requestLoop outcomes 0 3 none =
        ((2 : ℚ) ^ 0 :: (requestLoop outcomes 1 2 (some (.apiError r.status (.str r.text) []))).1,
          (requestLoop outcomes 1 2 (some (.apiError r.status (.str r.text) []))).2) := by
      rw [requestLoop_succ, houts 0 (by omega)]
      simp only [loopBody, if_neg h429, if_pos h500]
      cases hr : requestLoop outcomes 1 2 (some (.apiError r.status (.str r.text) [])) with
      | mk s2 res => simp [hr]
    have step1b : requestLoop outcomes 1 2 (some (.apiError r.status (.str r.text) [])) =
        ((2 : ℚ) ^ 1 :: (requestLoop outcomes 2 1 (some (.apiError r.status (.str r.text) []))).1,
          (requestLoop outcomes 2 1 (some (.apiError r.status (.str r.text) []))).2) := by
      rw [requestLoop_succ, houts 1 (by omega)]
      simp only [loopBody, if_neg h429, if_pos h500]
      cases hr : requestLoop outcomes 2 1 (some (.apiError r.status (.str r.text) [])) with
      | mk s2 res => simp [hr]
    rw [pyRequest, step0, step1b, step2b]
    norm_num
  · intro outcomes r hout h400 h500 h429 htext hjnone
    have hjson : jsonOrEmpty r = .error .jsonDecodeError := by
      unfold jsonOrEmpty respJson
      rw [if_neg htext, hjnone]
    rw [pyRequest, requestLoop_succ, hout]
    by_cases hauth : r.status = 401 ∨ r.status = 403
    · simp only [loopBody, if_neg (show ¬r.status = 429 from h429),
        if_neg (show ¬500 ≤ r.status by omega), if_pos hauth, hjson]
    · simp only [loopBody, if_neg (show ¬r.status = 429 from h429),
        if_neg (show ¬500 ≤ r.status by omega), if_neg hauth, if_pos h400, hjson]

/-- C7 counterexample: a 401 whose non-empty body is not parseable JSON
raises the JSON decode error of `resp.json()`, not a classified SDK
error. -/
theorem unparseable_error_body_counterexample :
    pyRequest (fun _ => .response ⟨401, none, "not json", none⟩) =
      ([], .error .jsonDecodeError)
    ∧ PyError.jsonDecodeError.isSdkError = false := by
  constructor
  · decide
  · decide

/-- C7 witness: the four amended branches evaluated at concrete
responses. -/
theorem error_body_parsing_witness :
    pyRequest (fun _ => .response ⟨403, none, "", none⟩) =
      ([], .error (mkAuthenticationError (.str "Authentication failed") []))
    ∧ pyRequest (fun _ => .response ⟨404, none, "", none⟩) =
        ([], .error (.apiError 404 (.str "Request failed") []))
    ∧ pyRequest (fun _ => .response ⟨503, none, "oops", none⟩) =
        ([1, 2], .error (.apiError 503 (.str "oops") []))
    ∧ pyRequest (fun _ => .response ⟨400, none, "not json", none⟩) =
        ([], .error .jsonDecodeError) := by
  refine ⟨?_, ?_, ?_, ?_⟩
  · exact error_body_parsing_behavior.1 _ ⟨403, none, "", none⟩ rfl (Or.inr rfl) rfl
  · exact error_body_parsing_behavior.2.1 _ ⟨404, none, "", none⟩ rfl (by decide) (by decide)
      (by decide) (by decide) (by decide) rfl
  · exact error_body_parsing_behavior.2.2.1 _ ⟨503, none, "oops", none⟩
      (fun i _ => rfl) (by decide)
  · exact error_body_parsing_behavior.2.2.2 _ ⟨400, none, "not json", none⟩ rfl (by decide)
      (by decide) (by decide) (by decide) rfl

/-- The refresh path always performs exactly one network call. -/
theorem getTokenRefresh_calls (cache : Option TokenCache) (now : ℚ)
    (net : TokenResponse) : (getTokenRefresh cache now net).2.2 = 1 := by
  unfold getTokenRefresh
  split
  · rfl
  · split
    · rfl
    · split
      · rfl
      · split <;> rfl

/-- C3: with a cached token and `now < expiresAt - 30`, `get_token`
returns the cached access token with zero network calls and an unchanged
cache; otherwise - cached token inside the 30-second margin, or no cached
token - it performs exactly one network refresh call. -/
theorem token_cache_policy :
    (∀ (c : TokenCache) (now : ℚ) (net : TokenResponse),
        now < c.expires_at - 30 →
        getToken (some c) now net = (.ok c.access_token, some c, 0))
    ∧ (∀ (c : TokenCache) (now : ℚ) (net : TokenResponse),
        ¬ now < c.expires_at - 30 → (getToken (some c) now net).2.2 = 1)
    ∧ (∀ (now : ℚ) (net : TokenResponse), (getToken none now net).2.2 = 1) := by
  refine ⟨?_, ?_, ?_⟩
  · intro c now net h
    simp only [getToken]
    rw [if_pos h]
  · intro c now net h
    simp only [getToken]
    rw [if_neg h]
    exact getTokenRefresh_calls _ _ _
  · intro now net
    simp only [getToken]
    exact getTokenRefresh_calls _ _ _

/-- C3 witness: `expiresAt = now + 60` is a cache hit with zero calls;
`expiresAt = now + 20` triggers a refresh. -/
theorem token_cache_policy_witness :
    getToken (some ⟨.str "tok", 60⟩) 0 ⟨200, some []⟩ =
      (.ok (.str "tok"), some ⟨.str "tok", 60⟩, 0)
    ∧ (getToken (some ⟨.str "tok", 20⟩) 0 ⟨200, some []⟩).2.2 = 1 :=
  ⟨token_cache_policy.1 ⟨.str "tok", 60⟩ 0 ⟨200, some []⟩ (by norm_num),
   token_cache_policy.2.1 ⟨.str "tok", 20⟩ 0 ⟨200, some []⟩ (by norm_num)⟩

/-- C5 (amended): a non-2xx reply from the token endpoint makes
`get_token` fail immediately - `raise_for_status` raises the underlying
`httpx.HTTPStatusError`, not the SDK `AuthenticationError` - after exactly
one network call, with no retry at the token-manager layer and the cache
left unchanged. -/
theorem token_endpoint_non2xx_propagates (cache : Option TokenCache) (now : ℚ)
    (net : TokenResponse)
    (hmiss : ∀ c, cache = some c → ¬ now < c.expires_at - 30)
    (hstatus : ¬ (200 ≤ net.status ∧ net.status < 300)) :
    getToken cache now net = (.error (.httpStatusError net.status), cache, 1) := by
  have href : getTokenRefresh cache now net =
      (.error (.httpStatusError net.status), cache, 1) := by
    unfold getTokenRefresh
    rw [if_pos hstatus]
  cases cache with
  | none => simpa only [getToken] using href
  | some c =>
      simp only [getToken]
      rw [if_neg (hmiss c rfl)]
      exact href

/-- C5 witness: a concrete 500 reply from the token endpoint propagates
immediately after one call. -/
theorem token_endpoint_non2xx_witness :
    getToken none 0 ⟨500, none⟩ = (.error (.httpStatusError 500), none, 1) :=
  token_endpoint_non2xx_propagates none 0 ⟨500, none⟩
    (fun c hc => Option.noConfusion hc) (by decide)

/-- C5 counterexample: a 401 reply from the token endpoint is surfaced as
`httpx.HTTPStatusError`, which is not an `AuthenticationError`, refuting the
claim that `get_token` propagates an AuthError. -/
theorem token_endpoint_auth_error_counterexample :
    getToken none 0 ⟨401, some []⟩ = (.error (.httpStatusError 401), none, 1)
    ∧ (PyError.httpStatusError 401).isAuthenticationError = false := by
  constructor
  · decide
  · decide

theorem toCamel_address_line1 : toCamel "address_line1" = "addressLine1" := rfl

theorem toCamel_city : toCamel "city" = "city" := rfl

theorem toCamel_country : toCamel "country" = "country" := rfl

theorem toCamel_address_line2 : toCamel "address_line2" = "addressLine2" := rfl

theorem toCamel_state : toCamel "state" = "state" := rfl

theorem toCamel_postal_code : toCamel "postal_code" = "postalCode" := rfl

theorem serialize_asdictAddress_eq (req : AddressRequest) :
    serialize (asdictAddress req) =
      (if req.address_line1 = "" then [] else [("addressLine1", JVal.str req.address_line1)]) ++
      (if req.city = "" then [] else [("city", JVal.str req.city)]) ++
      (if req.country = "" then [] else [("country", JVal.str req.country)]) ++
      (if req.address_line2 = "" then [] else [("addressLine2", JVal.str req.address_line2)]) ++
      (if req.state = "" then [] else [("state", JVal.str req.state)]) ++
      (if req.postal_code = "" then [] else [("postalCode", JVal.str req.postal_code)]) := by
  by_cases h1 : req.address_line1 = "" <;>
    by_cases h2 : req.city = "" <;>
      by_cases h3 : req.country = "" <;>
        by_cases h4 : req.address_line2 = "" <;>
          by_cases h5 : req.state = "" <;>
            by_cases h6 : req.postal_code = "" <;>
              simp [serialize, asdictAddress, pyIsEmptyStr, pyIsZero,
                h1, h2, h3, h4, h5, h6, toCamel_address_line1, toCamel_city,
                toCamel_country, toCamel_address_line2, toCamel_state,
                toCamel_postal_code]

/-- C8: serializing a request omits every field holding the empty string
- and, for the generic serializer, any field holding numeric zero - and
emits every other field under its camel-cased wire name with its value
unchanged; in particular a request with `address_line2 = ""` yields a body
without the `addressLine2` key. -/
theorem serialize_omits_defaults :
    (∀ req : AddressRequest,
        serialize (asdictAddress req) =
          (if req.address_line1 = "" then [] else [("addressLine1", JVal.str req.address_line1)]) ++
          (if req.city = "" then [] else [("city", JVal.str req.city)]) ++
          (if req.country = "" then [] else [("country", JVal.str req.country)]) ++
          (if req.address_line2 = "" then [] else [("addressLine2", JVal.str req.address_line2)]) ++
          (if req.state = "" then [] else [("state", JVal.str req.state)]) ++
          (if req.postal_code = "" then [] else [("postalCode", JVal.str req.postal_code)]))
    ∧ (∀ req : AddressRequest, req.address_line2 = "" →
        ∀ v, ("addressLine2", v) ∉ serialize (asdictAddress req))
    ∧ (∀ (k : String) (q : ℚ) (kvs : JsonObj),
        serialize ((k, JVal.num q) :: kvs) =
          if q = 0 then serialize kvs else (toCamel k, JVal.num q) :: serialize kvs) := by
  refine ⟨serialize_asdictAddress_eq, ?_, ?_⟩
  · intro req h v
    rw [serialize_asdictAddress_eq req, h]
    simp only [if_pos rfl]
    intro hmem
    simp only [List.append_nil, List.nil_append, List.mem_append] at hmem
    rcases hmem with ((((hm | hm) | hm) | hm) | hm) <;>
      · rcases (by split at hm <;> simp_all : ∃ s : String,
            (("addressLine2" : String), v).1 = s ∧ s ≠ "addressLine2") with ⟨s, hs, hne⟩
        exact hne hs.symm
  · intro k q kvs
    by_cases hq : q = 0 <;> simp [serialize, pyIsEmptyStr, pyIsZero, hq]

/-- C8 witness: the serializer evaluated at a concrete request with an
empty `address_line2`, and at a numeric-zero field. -/
theorem serialize_omits_defaults_witness :
    serialize (asdictAddress ⟨"123 Main St", "New York", "US", "", "NY", "10001"⟩) =
      [("addressLine1", .str "123 Main St"), ("city", .str "New York"),
       ("country", .str "US"), ("state", .str "NY"), ("postalCode", .str "10001")]
    ∧ ("addressLine2", JVal.str "x") ∉
        serialize (asdictAddress ⟨"123 Main St", "New York", "US", "", "NY", "10001"⟩)
    ∧ serialize [("confidence_score", JVal.num 0)] = [] := by
  refine ⟨?_, ?_, ?_⟩
  · have h := serialize_omits_defaults.1 ⟨"123 Main St", "New York", "US", "", "NY", "10001"⟩
    simpa using h
  · exact serialize_omits_defaults.2.1 ⟨"123 Main St", "New York", "US", "", "NY", "10001"⟩
      rfl (JVal.str "x")
  · have h := serialize_omits_defaults.2.2 "confidence_score" 0 []
    simpa [serialize] using h
